import Mathlib

/-!
Shallow embedding of `sdkmanager/win_android/find_java.cpp`: a Windows
Java-launcher discovery routine.  The OS (environment variables, filesystem,
registry, process spawning, system info) is modelled as a read-only oracle
`World`; the one piece of mutable OS state the code toggles — WOW64
filesystem redirection — is threaded explicitly as a `Bool`
(`true` = redirection enabled, the process's normal state).

Functions that take a `CPath *` in/out parameter in C are modelled as taking
the path value and returning the (possibly mutated) path; a C function
`bool f(CPath *out)` becomes `f : World → Path → Bool → Bool × Path × Bool`
returning `(result, out, redirState)`.
-/

namespace FindJava

/-- A filesystem path, as the list of its segments.  `CPath::addPath` is
list append; `CPath::cstr()` joins the segments with a backslash. -/
abbrev Path := List String

/-- Modelled from the spec: `CPath::cstr()` (string rendering of a path;
the `CPath` utility class is not part of this source file). -/
def cstr (p : Path) : String :=
  String.intercalate "\\" p

/-- One `WIN32_FIND_DATAA` record: the directory attribute bit and the
file name, which is all `checkProgramFiles` reads. -/
structure FindData where
  isDir : Bool
  name : String
deriving DecidableEq

/-- The native processor architecture reported by `GetNativeSystemInfo`;
the code only distinguishes `PROCESSOR_ARCHITECTURE_AMD64` from the rest. -/
inductive Arch
  | x86
  | amd64
deriving DecidableEq

/-- Result status of `RegQueryValueExA`, restricted to the cases the code
distinguishes: success, `ERROR_MORE_DATA` (buffer too small), and any other
failure such as `ERROR_FILE_NOT_FOUND` (value name absent). -/
inductive RegStatus
  | success
  | moreData
  | fileNotFound
deriving DecidableEq

/-- The read-only OS oracle.  Filesystem queries take the current WOW64
redirection state (`true` = enabled) as first argument, since redirection
changes which filesystem view the process sees. -/
structure World where
  /-- `getenv` -/
  getenv : String → Option String
  /-- `CPath::fileExists` under a given redirection state -/
  fileExists : Bool → Path → Bool
  /-- `CPath::dirExists` under a given redirection state -/
  dirExists : Bool → Path → Bool
  /-- `execWait cmd`: spawn the command line, wait, return its exit code;
  a spawn failure is a nonzero code.  Modelled from the spec: the
  `execWait` utility is not part of this source file. -/
  execWait : Bool → String → Int
  /-- `RegOpenKeyExA(HKEY_LOCAL_MACHINE, keyPath, 0, KEY_READ ∣ access, ·)`
  succeeds — i.e. the key exists under the given registry view -/
  regKeyExists : Nat → String → Bool
  /-- the registry value stored at (access view, key path, value name),
  or `none` when the value name is absent from an existing key -/
  regValue : Nat → String → String → Option String
  /-- contents of freshly `malloc`ed (uninitialized) memory, read back when
  the code consults the buffer although no registry read filled it -/
  junk : String
  /-- `SHGetFolderPathA(CSIDL_PROGRAM_FILES)`: the Program Files folder,
  or `none` when the call fails -/
  programFiles : Option String
  /-- `FindFirstFileA`/`FindNextFileA` over a glob pattern, under a given
  redirection state; `[]` models `INVALID_HANDLE_VALUE` (no match) -/
  findFiles : Bool → Path → List FindData
  /-- `GetNativeSystemInfo().wProcessorArchitecture` -/
  arch : Arch
  /-- `CreatePipe` succeeds -/
  createPipeOk : Bool
  /-- `CreateProcessA` on a command line succeeds -/
  createProcessOk : String → Bool
  /-- `GetExitCodeProcess` after waiting on the child spawned for a command
  line: `some code` on success, `none` when the call fails -/
  getExitCode : String → Option Int

/-- `disableWow64FsRedirection`: turns redirection off and hands back the
old state as the opaque token (`PVOID`) to restore later. -/
def disableWow64FsRedirection (s : Bool) : Bool × Bool :=
  (s, false)

/-- `revertWow64FsRedirection oldWow64Value`: restores the state saved in
the token. -/
def revertWow64FsRedirection (oldWow64Value : Bool) (_s : Bool) : Bool :=
  oldWow64Value

/-- The command line `"<path>" -version` built by `CString::setf` in
`checkPath` and `getJavaVersion`. -/
def mkVersionCmd (p : Path) : String :=
  "\"" ++ cstr p ++ "\" -version"

/-- `checkPath` (find_java.cpp lines 25–40): append `java.exe` to the path,
disable WOW64 redirection, test existence, and if the file exists run
`"<path>" -version` and succeed exactly on exit code 0; finally revert the
redirection to the saved token.  Returns (result, mutated path, state). -/
def checkPath (w : World) (inOutPath : Path) (s : Bool) : Bool × Path × Bool :=
  let p := inOutPath ++ ["java.exe"]
  let dis := disableWow64FsRedirection s
  let result :=
    if w.fileExists dis.2 p then w.execWait dis.2 (mkVersionCmd p) == 0
    else false
  let s2 := revertWow64FsRedirection dis.1 dis.2
  (result, p, s2)

/-- `checkBinPath` (lines 43–46): append `bin` then run `checkPath`. -/
def checkBinPath (w : World) (inOutPath : Path) (s : Bool) : Bool × Path × Bool :=
  checkPath w (inOutPath ++ ["bin"]) s

/-- Modelled from the spec: `CString::split` at a separator character
(the `CString` utility class is not part of this source file); splits a
character list into the chunks between separators. -/
def splitCharAux (sep : Char) : List Char → List Char → List String
  | [], acc => [String.mk acc.reverse]
  | c :: rest, acc =>
    if c = sep then String.mk acc.reverse :: splitCharAux sep rest []
    else splitCharAux sep rest (c :: acc)

/-- Modelled from the spec: `CString(envPath).split(';')` — the
semicolon-delimited entries of a `PATH`-style variable. -/
def splitSemi (s : String) : List String :=
  splitCharAux ';' s.data []

/-- The `for` loop of `findJavaInEnvPath` (lines 66–74): test each `PATH`
entry with `checkPath`; first success wins and its (mutated) path is
written to the out parameter. -/
def findPathLoop (w : World) (out : Path) (s : Bool) : List String → Bool × Path × Bool
  | [] => (false, out, s)
  | entry :: rest =>
    let c := checkPath w [entry] s
    if c.1 then (true, c.2.1, c.2.2)
    else findPathLoop w out c.2.2 rest

/-- Lines 62–77 of `findJavaInEnvPath`: the `PATH` fallback after the
`JAVA_HOME` probe has not returned. -/
def envPathFallback (w : World) (out : Path) (s : Bool) : Bool × Path × Bool :=
  match w.getenv "PATH" with
  | none => (false, out, s)
  | some envPath => findPathLoop w out s (splitSemi envPath)

/-- `findJavaInEnvPath` (lines 49–78): try `JAVA_HOME` with the bin-scoped
check first; on failure or absence fall back to the `PATH` entries.
(`SetLastError(0)` and the `gDebug`/`msgBox` diagnostics have no effect on
the result and are not modelled.) -/
def findJavaInEnvPath (w : World) (out : Path) (s : Bool) : Bool × Path × Bool :=
  match w.getenv "JAVA_HOME" with
  | some envPath =>
    let c := checkBinPath w [envPath] s
    if c.1 then (true, c.2.1, c.2.2)
    else envPathFallback w out c.2.2
  | none => envPathFallback w out s

/-- `RegQueryValueExA` on a buffer of `size` bytes: absent value gives
`ERROR_FILE_NOT_FOUND` (and leaves `lpcbData` unchanged); a present value of
`dataSize` bytes (string length plus NUL terminator) succeeds when it fits
and otherwise reports `ERROR_MORE_DATA`, in both cases storing `dataSize`
into `lpcbData`. -/
def regQueryValueEx (val : Option String) (size : Nat) : RegStatus × Nat :=
  match val with
  | none => (RegStatus.fileNotFound, size)
  | some v =>
    let dataSize := v.length + 1
    if dataSize ≤ size then (RegStatus.success, dataSize)
    else (RegStatus.moreData, dataSize)

/-- The retry loop of `getRegValue` (lines 92–111): while the query reports
`ERROR_MORE_DATA` and the buffer size is still below 64 KB, re-query; on
`ERROR_MORE_DATA` the size (already updated to the required size by the
API) is doubled and the buffer reallocated.  Fuel-indexed; the C loop
terminates because the size strictly grows, and fuel 32 is never exhausted
from the initial size 4096. -/
def regReadLoop (val : Option String) : Nat → RegStatus → Nat → RegStatus
  | 0, ret, _ => ret
  | fuel + 1, ret, size =>
    if ret = RegStatus.moreData ∧ size < 65536 then
      let q := regQueryValueEx val size
      if q.1 = RegStatus.moreData then regReadLoop val fuel q.1 (q.2 * 2)
      else q.1
    else ret

/-- `getRegValue` (lines 82–122): open the key under the requested view;
run the growing-buffer query loop from size 4096; afterwards, whenever the
final status is not `ERROR_MORE_DATA` — including `ERROR_FILE_NOT_FOUND` —
the code stores the buffer into `*outValue` and returns true; the buffer
holds the registry value on success and uninitialized `malloc` memory
(`w.junk`) when the value was absent.  Only the `ERROR_MORE_DATA` exit (and
a failed key open) return false. -/
def getRegValue (w : World) (keyPath keyName : String) (access : Nat)
    (outValue : String) : Bool × String :=
  if w.regKeyExists access keyPath then
    let val := w.regValue access keyPath keyName
    let ret := regReadLoop val 32 RegStatus.moreData 4096
    if ret ≠ RegStatus.moreData then
      let buffer :=
        match val with
        | some v => v
        | none => w.junk
      (true, buffer)
    else (false, outValue)
  else (false, outValue)

/-- `KEY_WOW64_32KEY` -/
def KEY_WOW64_32KEY : Nat := 512

/-- `KEY_WOW64_64KEY` -/
def KEY_WOW64_64KEY : Nat := 256

/-- `exploreJavaRegistry` (lines 124–145): read
`SOFTWARE\JavaSoft\<entry> [CurrentVersion]`, then
`SOFTWARE\JavaSoft\<entry>\<version> [JavaHome]`, then validate the
home with the bin-scoped check; the out parameter is written only on
success. -/
def exploreJavaRegistry (w : World) (entry : String) (access : Nat)
    (out : Path) (s : Bool) : Bool × Path × Bool :=
  let subKey : Path := ["SOFTWARE", "JavaSoft", entry]
  let r1 := getRegValue w (cstr subKey) "CurrentVersion" access ""
  if r1.1 then
    let subKey2 := subKey ++ [r1.2]
    let r2 := getRegValue w (cstr subKey2) "JavaHome" access ""
    if r2.1 then
      let c := checkBinPath w [r2.2] s
      if c.1 then (true, c.2.1, c.2.2)
      else (false, out, c.2.2)
    else (false, out, s)
  else (false, out, s)

/-- `findJavaInRegistry` (lines 147–178): JRE then JDK under the default
view; only when the native architecture is AMD64, JRE/JDK under the forced
32-bit view and then under the forced 64-bit view; first success wins. -/
def findJavaInRegistry (w : World) (out : Path) (s : Bool) : Bool × Path × Bool :=
  let e1 := exploreJavaRegistry w "Java Runtime Environment" 0 out s
  if e1.1 then e1
  else
    let e2 := exploreJavaRegistry w "Java Development Kit" 0 out e1.2.2
    if e2.1 then e2
    else
      if w.arch = Arch.amd64 then
        let e3 := exploreJavaRegistry w "Java Runtime Environment" KEY_WOW64_32KEY out e2.2.2
        if e3.1 then e3
        else
          let e4 := exploreJavaRegistry w "Java Development Kit" KEY_WOW64_32KEY out e3.2.2
          if e4.1 then e4
          else
            let e5 := exploreJavaRegistry w "Java Runtime Environment" KEY_WOW64_64KEY out e4.2.2
            if e5.1 then e5
            else
              let e6 := exploreJavaRegistry w "Java Development Kit" KEY_WOW64_64KEY out e5.2.2
              if e6.1 then e6
              else (false, out, e6.2.2)
      else (false, out, e2.2.2)

/-- Modelled from the spec: the ordered (product × registry view)
combinations the registry locator is specified to try — default view
(JRE, JDK), then on AMD64 the 32-bit view (JRE, JDK) and the 64-bit view
(JRE, JDK). -/
def registryCombos (arch : Arch) : List (String × Nat) :=
  [("Java Runtime Environment", 0), ("Java Development Kit", 0)] ++
    (if arch = Arch.amd64 then
      [("Java Runtime Environment", KEY_WOW64_32KEY),
       ("Java Development Kit", KEY_WOW64_32KEY),
       ("Java Runtime Environment", KEY_WOW64_64KEY),
       ("Java Development Kit", KEY_WOW64_64KEY)]
    else [])

/-- Modelled from the spec: "the first validated match wins and
short-circuits all further attempts" — fold over the ordered combination
list, returning the first `exploreJavaRegistry` success. -/
def firstValidatedCombo (w : World) (out : Path) (s : Bool) :
    List (String × Nat) → Bool × Path × Bool
  | [] => (false, out, s)
  | combo :: rest =>
    let e := exploreJavaRegistry w combo.1 combo.2 out s
    if e.1 then e
    else firstValidatedCombo w out e.2.2 rest

/-- The `do … while (!found && FindNextFileA(…))` loop of
`checkProgramFiles` (lines 202–216): for each enumerated entry that is a
directory, run the bin-scoped check on `<path>\<name>`; on the first
success set `found`, write the out parameter and — because the loop
condition requires `!found` — stop enumerating. -/
def checkProgramFilesLoop (w : World) (path : Path) (out : Path) (s : Bool) :
    List FindData → Bool × Path × Bool
  | [] => (false, out, s)
  | findData :: rest =>
    if findData.isDir then
      let c := checkBinPath w (path ++ [findData.name]) s
      if c.1 then (true, c.2.1, c.2.2)
      else checkProgramFilesLoop w path out c.2.2 rest
    else checkProgramFilesLoop w path out s rest

/-- `checkProgramFiles` (lines 182–220): resolve the Program Files folder,
append `Java`, require the directory to exist, enumerate `j*` under it and
run the first-success loop. -/
def checkProgramFiles (w : World) (out : Path) (s : Bool) : Bool × Path × Bool :=
  match w.programFiles with
  | none => (false, out, s)
  | some programFilesPath =>
    let path : Path := [programFilesPath, "Java"]
    if w.dirExists s path then
      checkProgramFilesLoop w path out s (w.findFiles s (path ++ ["j*"]))
    else (false, out, s)

/-- `findJavaInProgramFiles` (lines 222–242): probe under the default
(possibly redirected) view; if that fails and the native architecture is
AMD64, disable redirection, probe again, and revert redirection with the
saved token before returning. -/
def findJavaInProgramFiles (w : World) (out : Path) (s : Bool) : Bool × Path × Bool :=
  let c := checkProgramFiles w out s
  if c.1 then c
  else
    if w.arch = Arch.amd64 then
      let dis := disableWow64FsRedirection c.2.2
      let c2 := checkProgramFiles w c.2.1 dis.2
      let s2 := revertWow64FsRedirection dis.1 c2.2.2
      (c2.1, c2.2.1, s2)
    else (false, c.2.1, c.2.2)

/-- `getJavaVersion` (lines 246–318): build `"<path>" -version`, create a
pipe (failing the whole call if that fails), spawn the child, wait, and
succeed exactly on exit code 0; `GetExitCodeProcess` failure leaves the
result false.  The `version` out parameter is returned untouched: parsing
the printed version string is an explicit TODO in the source. -/
def getJavaVersion (w : World) (javaPath : Path) (version : String) : Bool × String :=
  let cmd := mkVersionCmd javaPath
  if !w.createPipeOk then (false, version)
  else
    let ret := w.createProcessOk cmd
    let result :=
      if ret then
        match w.getExitCode cmd with
        | some exitCode => exitCode == 0
        | none => false
      else false
    (result, version)

/-! ### Concrete worlds used to evaluate the model on closed inputs -/

/-- A world in which nothing is found: no environment variables, no files,
no registry keys, `SHGetFolderPathA` failing, every spawn failing. -/
def baseWorld : World where
  getenv := fun _ => none
  fileExists := fun _ _ => false
  dirExists := fun _ _ => false
  execWait := fun _ _ => 1
  regKeyExists := fun _ _ => false
  regValue := fun _ _ _ => none
  junk := ""
  programFiles := none
  findFiles := fun _ _ => []
  arch := Arch.x86
  createPipeOk := true
  createProcessOk := fun _ => false
  getExitCode := fun _ => none

/-- `C:\Program Files\Java` holds two subdirectories, `jdk1.6` enumerated
first and `jdk1.8` enumerated second, both with a working
`bin\java.exe`. -/
def twoJdkWorld : World :=
  { baseWorld with
    programFiles := some "C:\\Program Files"
    dirExists := fun _ p => p == ["C:\\Program Files", "Java"]
    findFiles := fun _ g =>
      if g == ["C:\\Program Files", "Java", "j*"] then
        [⟨true, "jdk1.6"⟩, ⟨true, "jdk1.8"⟩]
      else []
    fileExists := fun _ p =>
      p == ["C:\\Program Files", "Java", "jdk1.6", "bin", "java.exe"] ||
        p == ["C:\\Program Files", "Java", "jdk1.8", "bin", "java.exe"]
    execWait := fun _ _ => 0 }

/-- Registry state for the missing-`JavaHome` scenario: the key
`SOFTWARE\JavaSoft\Java Runtime Environment` exists with
`CurrentVersion = "1.7"`, the subkey `…\1.7` exists but holds no
`JavaHome` value; the filesystem is empty. -/
def missingJavaHomeWorld : World :=
  { baseWorld with
    regKeyExists := fun _ k =>
      k == "SOFTWARE\\JavaSoft\\Java Runtime Environment" ||
        k == "SOFTWARE\\JavaSoft\\Java Runtime Environment\\1.7"
    regValue := fun _ k n =>
      if k == "SOFTWARE\\JavaSoft\\Java Runtime Environment" &&
          n == "CurrentVersion" then some "1.7"
      else none
    junk := "C:\\garbage" }

/-- Both `JAVA_HOME` (pointing at `C:\jdk`, valid under `bin`) and `PATH`
(a single entry `C:\other`, valid directly) are set to different working
candidates. -/
def envWorld : World :=
  { baseWorld with
    getenv := fun name =>
      if name == "JAVA_HOME" then some "C:\\jdk"
      else if name == "PATH" then some "C:\\other"
      else none
    fileExists := fun _ p =>
      p == ["C:\\jdk", "bin", "java.exe"] || p == ["C:\\other", "java.exe"]
    execWait := fun _ _ => 0 }

/-- `JAVA_HOME` is unset and `PATH` is `C:\a;C:\b;C:\c`, with only the
third entry holding a working `java.exe`. -/
def pathOnlyWorld : World :=
  { baseWorld with
    getenv := fun name =>
      if name == "PATH" then some "C:\\a;C:\\b;C:\\c" else none
    fileExists := fun _ p => p == ["C:\\c", "java.exe"]
    execWait := fun _ _ => 0 }

/-- A registry string value of 32767 characters: with its NUL terminator
its data size is 32768 bytes, the smallest size the growing-buffer read
cannot accommodate below the 64 KB bound. -/
def bigRegString : String := String.mk (List.replicate 32767 'a')

/-- Registry state for the buffer-growth scenario: key `K` holds a small
`CurrentVersion` value, key `BIG` holds the 32767-character one. -/
def regValueWorld : World :=
  { baseWorld with
    regKeyExists := fun _ k => k == "K" || k == "BIG"
    regValue := fun _ k n =>
      if k == "K" && n == "CurrentVersion" then some "1.7"
      else if k == "BIG" && n == "CurrentVersion" then some bigRegString
      else none }

/-! ### WOW64 redirection state preservation -/

theorem checkPath_state (w : World) (p : Path) (s : Bool) :
    (checkPath w p s).2.2 = s := rfl

theorem checkBinPath_state (w : World) (p : Path) (s : Bool) :
    (checkBinPath w p s).2.2 = s := rfl

theorem findPathLoop_state (w : World) (out : Path) (s : Bool) (l : List String) :
    (findPathLoop w out s l).2.2 = s := by
  induction l generalizing s with
  | nil => rfl
  | cons entry rest ih =>
    simp only [findPathLoop]
    split
    · rfl
    · rw [ih]
      exact checkPath_state w [entry] s

theorem envPathFallback_state (w : World) (out : Path) (s : Bool) :
    (envPathFallback w out s).2.2 = s := by
  cases h : w.getenv "PATH" <;> simp [envPathFallback, h, findPathLoop_state]

theorem findJavaInEnvPath_state (w : World) (out : Path) (s : Bool) :
    (findJavaInEnvPath w out s).2.2 = s := by
  cases h : w.getenv "JAVA_HOME" with
  | none => simp [findJavaInEnvPath, h, envPathFallback_state]
  | some home =>
    simp only [findJavaInEnvPath, h]
    split
    · rfl
    · rw [envPathFallback_state]
      exact checkBinPath_state w [home] s

theorem exploreJavaRegistry_state (w : World) (entry : String) (access : Nat)
    (out : Path) (s : Bool) :
    (exploreJavaRegistry w entry access out s).2.2 = s := by
  simp only [exploreJavaRegistry]
  split
  · split
    · split
      · rfl
      · rfl
    · rfl
  · rfl

theorem findJavaInRegistry_state (w : World) (out : Path) (s : Bool) :
    (findJavaInRegistry w out s).2.2 = s := by
  simp only [findJavaInRegistry]
  split
  · exact exploreJavaRegistry_state ..
  · rw [exploreJavaRegistry_state]
    split
    · exact exploreJavaRegistry_state ..
    · rw [exploreJavaRegistry_state]
      split
      · split
        · exact exploreJavaRegistry_state ..
        · rw [exploreJavaRegistry_state]
          split
          · exact exploreJavaRegistry_state ..
          · rw [exploreJavaRegistry_state]
            split
            · exact exploreJavaRegistry_state ..
            · rw [exploreJavaRegistry_state]
              split
              · exact exploreJavaRegistry_state ..
              · exact exploreJavaRegistry_state ..
      · rfl

theorem checkProgramFilesLoop_state (w : World) (path out : Path) (s : Bool)
    (l : List FindData) :
    (checkProgramFilesLoop w path out s l).2.2 = s := by
  induction l generalizing s with
  | nil => rfl
  | cons d rest ih =>
    simp only [checkProgramFilesLoop]
    split
    · split
      · rfl
      · rw [ih]
        exact checkBinPath_state w (path ++ [d.name]) s
    · exact ih s

theorem checkProgramFiles_state (w : World) (out : Path) (s : Bool) :
    (checkProgramFiles w out s).2.2 = s := by
  cases h : w.programFiles with
  | none => simp [checkProgramFiles, h]
  | some pf =>
    simp only [checkProgramFiles, h]
    split
    · exact checkProgramFilesLoop_state ..
    · rfl

theorem findJavaInProgramFiles_state (w : World) (out : Path) (s : Bool) :
    (findJavaInProgramFiles w out s).2.2 = s := by
  simp only [findJavaInProgramFiles]
  split
  · exact checkProgramFiles_state ..
  · split
    · simp only [disableWow64FsRedirection, revertWow64FsRedirection]
      exact checkProgramFiles_state ..
    · exact checkProgramFiles_state ..

/-- C3: every probing call restores the WOW64 filesystem-redirection state
it found: the state component returned by `checkPath`, `checkBinPath` and
each of the three discovery entry points equals the state passed in, on
every exit path. -/
theorem C3_wow64_redirection_restored (w : World) (p out : Path) (s : Bool) :
    (checkPath w p s).2.2 = s ∧
    (checkBinPath w p s).2.2 = s ∧
    (findJavaInEnvPath w out s).2.2 = s ∧
    (findJavaInRegistry w out s).2.2 = s ∧
    (findJavaInProgramFiles w out s).2.2 = s :=
  ⟨checkPath_state w p s, checkBinPath_state w p s, findJavaInEnvPath_state w out s,
    findJavaInRegistry_state w out s, findJavaInProgramFiles_state w out s⟩

/-! ### The out parameter is written only on success -/

theorem findPathLoop_not_found (w : World) (out : Path) (s : Bool) (l : List String) :
    (findPathLoop w out s l).1 = false → (findPathLoop w out s l).2.1 = out := by
  induction l generalizing s with
  | nil => exact fun _ => rfl
  | cons entry rest ih =>
    simp only [findPathLoop]
    split
    · exact fun h => Bool.noConfusion h
    · exact ih _

theorem envPathFallback_not_found (w : World) (out : Path) (s : Bool) :
    (envPathFallback w out s).1 = false → (envPathFallback w out s).2.1 = out := by
  cases hp : w.getenv "PATH" with
  | none => exact fun _ => by simp [envPathFallback, hp]
  | some str =>
    simp only [envPathFallback, hp]
    exact findPathLoop_not_found w out s (splitSemi str)

theorem findJavaInEnvPath_not_found (w : World) (out : Path) (s : Bool) :
    (findJavaInEnvPath w out s).1 = false → (findJavaInEnvPath w out s).2.1 = out := by
  cases hj : w.getenv "JAVA_HOME" with
  | none =>
    simp only [findJavaInEnvPath, hj]
    exact envPathFallback_not_found w out s
  | some home =>
    simp only [findJavaInEnvPath, hj]
    split
    · exact fun h => Bool.noConfusion h
    · exact envPathFallback_not_found w out _

theorem findJavaInRegistry_not_found (w : World) (out : Path) (s : Bool) :
    (findJavaInRegistry w out s).1 = false → (findJavaInRegistry w out s).2.1 = out := by
  simp only [findJavaInRegistry]
  split
  · rename_i he
    exact fun h => Bool.noConfusion (he.symm.trans h)
  · split
    · rename_i he
      exact fun h => Bool.noConfusion (he.symm.trans h)
    · split
      · split
        · rename_i he
          exact fun h => Bool.noConfusion (he.symm.trans h)
        · split
          · rename_i he
            exact fun h => Bool.noConfusion (he.symm.trans h)
          · split
            · rename_i he
              exact fun h => Bool.noConfusion (he.symm.trans h)
            · split
              · rename_i he
                exact fun h => Bool.noConfusion (he.symm.trans h)
              · exact fun _ => rfl
      · exact fun _ => rfl

theorem checkProgramFilesLoop_not_found (w : World) (path out : Path) (s : Bool)
    (l : List FindData) :
    (checkProgramFilesLoop w path out s l).1 = false →
    (checkProgramFilesLoop w path out s l).2.1 = out := by
  induction l generalizing s with
  | nil => exact fun _ => rfl
  | cons d rest ih =>
    simp only [checkProgramFilesLoop]
    split
    · split
      · exact fun h => Bool.noConfusion h
      · exact ih _
    · exact ih _

theorem checkProgramFiles_not_found (w : World) (out : Path) (s : Bool) :
    (checkProgramFiles w out s).1 = false → (checkProgramFiles w out s).2.1 = out := by
  cases hp : w.programFiles with
  | none => exact fun _ => by simp [checkProgramFiles, hp]
  | some pf =>
    simp only [checkProgramFiles, hp]
    split
    · exact checkProgramFilesLoop_not_found w _ out s _
    · exact fun _ => rfl

theorem findJavaInProgramFiles_not_found (w : World) (out : Path) (s : Bool) :
    (findJavaInProgramFiles w out s).1 = false →
    (findJavaInProgramFiles w out s).2.1 = out := by
  simp only [findJavaInProgramFiles]
  split
  · rename_i he
    exact fun h => Bool.noConfusion (he.symm.trans h)
  · rename_i he
    simp only [Bool.not_eq_true] at he
    have h1 : (checkProgramFiles w out s).2.1 = out := checkProgramFiles_not_found w out s he
    split
    · simp only [disableWow64FsRedirection, revertWow64FsRedirection]
      rw [h1]
      exact fun h => checkProgramFiles_not_found w out false h
    · exact fun _ => h1

/-- C10: whenever a locator (`findJavaInEnvPath`, `findJavaInRegistry`,
`findJavaInProgramFiles`) reports not-found, the out parameter it was
handed comes back unmodified: locators write it only on the success path. -/
theorem C10_out_param_untouched_on_failure (w : World) (out : Path) (s : Bool) :
    ((findJavaInEnvPath w out s).1 = false → (findJavaInEnvPath w out s).2.1 = out) ∧
    ((findJavaInRegistry w out s).1 = false → (findJavaInRegistry w out s).2.1 = out) ∧
    ((findJavaInProgramFiles w out s).1 = false →
      (findJavaInProgramFiles w out s).2.1 = out) :=
  ⟨findJavaInEnvPath_not_found w out s, findJavaInRegistry_not_found w out s,
    findJavaInProgramFiles_not_found w out s⟩

/-- C10 witness: in the world where nothing is found, each locator fails
and hands back the out parameter `["C:\orig"]` unmodified. -/
theorem C10_out_param_untouched_on_failure_witness :
    (findJavaInEnvPath baseWorld ["C:\\orig"] true).2.1 = ["C:\\orig"] ∧
    (findJavaInRegistry baseWorld ["C:\\orig"] true).2.1 = ["C:\\orig"] ∧
    (findJavaInProgramFiles baseWorld ["C:\\orig"] true).2.1 = ["C:\\orig"] :=
  ⟨(C10_out_param_untouched_on_failure baseWorld ["C:\\orig"] true).1 (by decide),
   (C10_out_param_untouched_on_failure baseWorld ["C:\\orig"] true).2.1 (by decide),
   (C10_out_param_untouched_on_failure baseWorld ["C:\\orig"] true).2.2 (by decide)⟩

/-! ### Registry probe order -/

/-- C4: `findJavaInRegistry` is exactly the first-success fold over the
spec's ordered (product × view) combination list: default view JRE then
JDK, and — only when the native architecture is AMD64 — the 32-bit view
(JRE, JDK) followed by the 64-bit view (JRE, JDK); the first combination
whose candidate validates supplies the result and cuts off the rest. -/
theorem C4_registry_probe_order (w : World) (out : Path) (s : Bool) :
    findJavaInRegistry w out s = firstValidatedCombo w out s (registryCombos w.arch) := by
  cases h : w.arch <;>
    simp only [findJavaInRegistry, firstValidatedCombo, registryCombos, h,
      List.cons_append, List.nil_append, if_true, if_false, reduceCtorEq, reduceIte]

/-! ### Environment locator -/

/-- C5: when `JAVA_HOME` is set and its bin-scoped check validates, the
`JAVA_HOME`-derived path (with `bin\java.exe` appended) is returned, the
redirection state is restored, and `PATH` is never consulted (the result
does not depend on it). -/
theorem C5_java_home_priority (w : World) (out : Path) (s : Bool) (home : String)
    (hJH : w.getenv "JAVA_HOME" = some home)
    (hok : (checkBinPath w [home] s).1 = true) :
    findJavaInEnvPath w out s = (true, (checkBinPath w [home] s).2.1, s) := by
  simp only [findJavaInEnvPath, hJH, hok, if_true]
  rw [checkBinPath_state]

/-- C5 witness: with `JAVA_HOME = C:\jdk` and `PATH = C:\other` both
pointing at working candidates, the `JAVA_HOME` one is returned. -/
theorem C5_java_home_priority_witness :
    findJavaInEnvPath envWorld [] true = (true, ["C:\\jdk", "bin", "java.exe"], true) :=
  C5_java_home_priority envWorld [] true "C:\\jdk" rfl (by decide)

theorem findPathLoop_first_success (w : World) (out : Path) (s : Bool)
    (l1 l2 : List String) (entry : String)
    (hok : (checkPath w [entry] s).1 = true)
    (hfail : ∀ e ∈ l1, (checkPath w [e] s).1 = false) :
    findPathLoop w out s (l1 ++ entry :: l2) =
      (true, (checkPath w [entry] s).2.1, s) := by
  induction l1 with
  | nil =>
    simp only [List.nil_append, findPathLoop, hok, if_true]
    rw [checkPath_state]
  | cons e rest ih =>
    have he : (checkPath w [e] s).1 = false := hfail e (List.mem_cons_self e rest)
    simp only [List.cons_append, findPathLoop, he, Bool.false_eq_true, if_false]
    rw [checkPath_state]
    exact ih fun x hx => hfail x (List.mem_cons_of_mem e hx)

theorem findPathLoop_all_fail (w : World) (out : Path) (s : Bool) (l : List String)
    (hfail : ∀ e ∈ l, (checkPath w [e] s).1 = false) :
    findPathLoop w out s l = (false, out, s) := by
  induction l with
  | nil => rfl
  | cons e rest ih =>
    have he : (checkPath w [e] s).1 = false := hfail e (List.mem_cons_self e rest)
    simp only [findPathLoop, he, Bool.false_eq_true, if_false]
    rw [checkPath_state]
    exact ih fun x hx => hfail x (List.mem_cons_of_mem e hx)

/-- C6: when `JAVA_HOME` yields no validated candidate, `PATH` is split on
`;` and probed in order with the direct (non-bin) check: if the entries
before some entry all fail and that entry validates, its path (with
`java.exe` appended) is returned; and if every entry fails, the locator
reports not-found with the out parameter untouched. -/
theorem C6_path_first_match (w : World) (out : Path) (s : Bool) (pstr : String)
    (hJH : ∀ home, w.getenv "JAVA_HOME" = some home → (checkBinPath w [home] s).1 = false)
    (hPATH : w.getenv "PATH" = some pstr) :
    (∀ l1 entry l2, splitSemi pstr = l1 ++ entry :: l2 →
      (checkPath w [entry] s).1 = true →
      (∀ e ∈ l1, (checkPath w [e] s).1 = false) →
      findJavaInEnvPath w out s = (true, (checkPath w [entry] s).2.1, s)) ∧
    ((∀ e ∈ splitSemi pstr, (checkPath w [e] s).1 = false) →
      findJavaInEnvPath w out s = (false, out, s)) := by
  have hfb : findJavaInEnvPath w out s = envPathFallback w out s := by
    cases hj : w.getenv "JAVA_HOME" with
    | none => simp [findJavaInEnvPath, hj]
    | some home =>
      simp only [findJavaInEnvPath, hj, hJH home hj, Bool.false_eq_true, if_false]
      rw [checkBinPath_state]
  constructor
  · intro l1 entry l2 hsplit hok hfail
    rw [hfb]
    simp only [envPathFallback, hPATH, hsplit]
    exact findPathLoop_first_success w out s l1 l2 entry hok hfail
  · intro hfail
    rw [hfb]
    simp only [envPathFallback, hPATH]
    exact findPathLoop_all_fail w out s (splitSemi pstr) hfail

/-- C6 witness: `JAVA_HOME` unset, `PATH = C:\a;C:\b;C:\c` with only the
third entry valid — the third entry's path is returned. -/
theorem C6_path_first_match_witness :
    findJavaInEnvPath pathOnlyWorld [] true = (true, ["C:\\c", "java.exe"], true) :=
  (C6_path_first_match pathOnlyWorld [] true "C:\\a;C:\\b;C:\\c"
      (fun home h => Option.noConfusion h) rfl).1
    ["C:\\a", "C:\\b"] "C:\\c" [] (by decide) (by decide) (by decide)

/-! ### Registry value reads: growing buffer with a 64 KB bound -/

theorem regReadLoop_succ (val : Option String) (fuel : Nat) (ret : RegStatus) (size : Nat) :
    regReadLoop val (fuel + 1) ret size =
      if ret = RegStatus.moreData ∧ size < 65536 then
        if (regQueryValueEx val size).1 = RegStatus.moreData then
          regReadLoop val fuel (regQueryValueEx val size).1 ((regQueryValueEx val size).2 * 2)
        else (regQueryValueEx val size).1
      else ret := rfl

theorem regQueryValueEx_fits (v : String) (size : Nat) (h : v.length + 1 ≤ size) :
    regQueryValueEx (some v) size = (RegStatus.success, v.length + 1) := by
  simp [regQueryValueEx, h]

theorem regQueryValueEx_more (v : String) (size : Nat) (h : ¬ v.length + 1 ≤ size) :
    regQueryValueEx (some v) size = (RegStatus.moreData, v.length + 1) := by
  simp [regQueryValueEx, h]

theorem regReadLoop_some (v : String) :
    regReadLoop (some v) 32 RegStatus.moreData 4096 =
      if v.length + 1 < 32768 then RegStatus.success else RegStatus.moreData := by
  have h32 : (32 : Nat) = 31 + 1 := rfl
  by_cases h1 : v.length + 1 ≤ 4096
  · rw [h32, regReadLoop_succ, regQueryValueEx_fits v 4096 h1]
    have hlt : v.length + 1 < 32768 := by omega
    simp [hlt]
  · rw [h32, regReadLoop_succ, regQueryValueEx_more v 4096 h1]
    rw [if_pos ⟨rfl, by norm_num⟩, if_pos rfl]
    show regReadLoop (some v) 31 RegStatus.moreData ((v.length + 1) * 2) =
      if v.length + 1 < 32768 then RegStatus.success else RegStatus.moreData
    have h31 : (31 : Nat) = 30 + 1 := rfl
    by_cases h2 : (v.length + 1) * 2 < 65536
    · rw [h31, regReadLoop_succ, regQueryValueEx_fits v ((v.length + 1) * 2) (by omega)]
      rw [if_pos ⟨rfl, h2⟩, if_neg (by simp)]
      rw [if_pos (show v.length + 1 < 32768 by omega)]
    · rw [h31, regReadLoop_succ, if_neg (fun hh => h2 hh.2)]
      rw [if_neg (show ¬ v.length + 1 < 32768 by omega)]

/-- C7: when the key opens and the value is present, `getRegValue`'s
growing-buffer loop (start 4096 bytes, double on `ERROR_MORE_DATA`, stop at
the 64 KB bound) retrieves any value whose data size lets the doubled
buffer stay below 64 KB, and cleanly reports not-found (false, out value
untouched) for larger values instead of failing fatally or looping — the
loop is a total function. -/
theorem C7_regvalue_buffer_growth (w : World) (keyPath keyName : String) (access : Nat)
    (outValue v : String)
    (hk : w.regKeyExists access keyPath = true)
    (hv : w.regValue access keyPath keyName = some v) :
    getRegValue w keyPath keyName access outValue =
      if v.length + 1 < 32768 then (true, v) else (false, outValue) := by
  simp only [getRegValue, hk, hv, if_true, regReadLoop_some]
  by_cases h : v.length + 1 < 32768
  · simp [h]
  · simp [h]

/-- C7 witness: under `regValueWorld`, the 4-byte value `"1.7"` is read
back successfully, while the 32768-byte value exceeds the growth bound and
yields false with the out value untouched. -/
theorem C7_regvalue_buffer_growth_witness :
    getRegValue regValueWorld "K" "CurrentVersion" 0 "init" = (true, "1.7") ∧
    getRegValue regValueWorld "BIG" "CurrentVersion" 0 "init" = (false, "init") := by
  constructor
  · have h := C7_regvalue_buffer_growth regValueWorld "K" "CurrentVersion" 0 "init" "1.7"
      rfl rfl
    rw [if_pos (by decide)] at h
    exact h
  · have h := C7_regvalue_buffer_growth regValueWorld "BIG" "CurrentVersion" 0 "init"
      bigRegString rfl rfl
    have hlen : bigRegString.length = 32767 := by
      show (List.replicate 32767 'a').length = 32767
      exact List.length_replicate 32767 'a'
    rw [hlen] at h
    norm_num at h
    exact h

/-! ### The executability check -/

/-- C8: `checkPath` appends the launcher name `java.exe`, succeeds exactly
when the resulting file exists (under suppressed redirection) and spawning
`"<path>" -version` exits with code 0 — absence or any nonzero exit gives
false — and `checkBinPath` is the same check after appending the fixed
`bin` segment. -/
theorem C8_checkPath_contract (w : World) (p : Path) (s : Bool) :
    checkPath w p s =
      (w.fileExists false (p ++ ["java.exe"]) &&
        w.execWait false (mkVersionCmd (p ++ ["java.exe"])) == 0,
       p ++ ["java.exe"], s) ∧
    checkBinPath w p s = checkPath w (p ++ ["bin"]) s := by
  refine ⟨?_, rfl⟩
  simp only [checkPath, disableWow64FsRedirection, revertWow64FsRedirection]
  cases h : w.fileExists false (p ++ ["java.exe"]) <;> simp [h]

/-! ### The version query stub -/

/-- C9: `getJavaVersion` returns only the success/failure boolean — true
exactly when the pipe is created, the child spawns and its exit code reads
back 0 — and never writes the `version` out parameter, on any path. -/
theorem C9_getJavaVersion_no_version_write (w : World) (javaPath : Path) (version : String) :
    (getJavaVersion w javaPath version).2 = version ∧
    ((getJavaVersion w javaPath version).1 = true ↔
      w.createPipeOk = true ∧ w.createProcessOk (mkVersionCmd javaPath) = true ∧
        w.getExitCode (mkVersionCmd javaPath) = some 0) := by
  constructor
  · simp only [getJavaVersion]
    split <;> rfl
  · simp only [getJavaVersion]
    cases hp : w.createPipeOk with
    | false => simp [hp]
    | true =>
      cases hc : w.createProcessOk (mkVersionCmd javaPath) with
      | false => simp [hp, hc]
      | true =>
        cases he : w.getExitCode (mkVersionCmd javaPath) with
        | none => simp [hp, hc, he]
        | some e => simp [hp, hc, he, beq_iff_eq]

/-! ### Program Files enumeration: which match wins -/

/-- C1 counterexample: in `twoJdkWorld` the filesystem enumerates
`jdk1.6` before `jdk1.8` and both validate; the claim says the LAST
validating directory (`jdk1.8`) wins, but `findJavaInProgramFiles` returns
the `jdk1.6` path — the `!found` in the loop condition stops enumeration at
the first validated match. -/
theorem C1_last_match_counterexample :
    (checkBinPath twoJdkWorld ["C:\\Program Files", "Java", "jdk1.6"] true).1 = true ∧
    (checkBinPath twoJdkWorld ["C:\\Program Files", "Java", "jdk1.8"] true).1 = true ∧
    twoJdkWorld.findFiles true ["C:\\Program Files", "Java", "j*"] =
      [⟨true, "jdk1.6"⟩, ⟨true, "jdk1.8"⟩] ∧
    (findJavaInProgramFiles twoJdkWorld [] true).1 = true ∧
    (findJavaInProgramFiles twoJdkWorld [] true).2.1 =
      ["C:\\Program Files", "Java", "jdk1.6", "bin", "java.exe"] ∧
    (findJavaInProgramFiles twoJdkWorld [] true).2.1 ≠
      ["C:\\Program Files", "Java", "jdk1.8", "bin", "java.exe"] := by
  decide

theorem checkProgramFilesLoop_first_success (w : World) (path out : Path) (s : Bool)
    (l1 l2 : List FindData) (d : FindData)
    (hd : d.isDir = true)
    (hok : (checkBinPath w (path ++ [d.name]) s).1 = true)
    (hfail : ∀ e ∈ l1, e.isDir = true → (checkBinPath w (path ++ [e.name]) s).1 = false) :
    checkProgramFilesLoop w path out s (l1 ++ d :: l2) =
      (true, (checkBinPath w (path ++ [d.name]) s).2.1, s) := by
  induction l1 with
  | nil =>
    simp only [List.nil_append, checkProgramFilesLoop, hd, if_true, hok]
    rw [checkBinPath_state]
  | cons e rest ih =>
    cases hdir : e.isDir with
    | false =>
      simp only [List.cons_append, checkProgramFilesLoop, hdir, Bool.false_eq_true, if_false]
      exact ih fun x hx hxd => hfail x (List.mem_cons_of_mem e hx) hxd
    | true =>
      have he := hfail e (List.mem_cons_self e rest) hdir
      simp only [List.cons_append, checkProgramFilesLoop, hdir, if_true, he,
        Bool.false_eq_true, if_false]
      rw [checkBinPath_state]
      exact ih fun x hx hxd => hfail x (List.mem_cons_of_mem e hx) hxd

/-- C1 amended: the FIRST enumerated `j*` subdirectory that is a directory
and passes the bin-scoped check wins, and enumeration stops there (entries
after it — `l2` — cannot influence the result); dir entries enumerated
before it must all have failed the check. -/
theorem C1_first_match_wins (w : World) (out : Path) (s : Bool) (pf : String)
    (l1 l2 : List FindData) (d : FindData)
    (hpf : w.programFiles = some pf)
    (hdir : w.dirExists s [pf, "Java"] = true)
    (hff : w.findFiles s [pf, "Java", "j*"] = l1 ++ d :: l2)
    (hd : d.isDir = true)
    (hok : (checkBinPath w [pf, "Java", d.name] s).1 = true)
    (hfail : ∀ e ∈ l1, e.isDir = true → (checkBinPath w [pf, "Java", e.name] s).1 = false) :
    checkProgramFiles w out s =
      (true, (checkBinPath w [pf, "Java", d.name] s).2.1, s) := by
  simp only [checkProgramFiles, hpf, hdir, if_true, List.cons_append, List.nil_append, hff]
  exact checkProgramFilesLoop_first_success w [pf, "Java"] out s l1 l2 d hd hok hfail

/-- C1 amended witness: in `twoJdkWorld` the first enumerated entry
`jdk1.6` validates, so its path is the result. -/
theorem C1_first_match_wins_witness :
    checkProgramFiles twoJdkWorld [] true =
      (true, ["C:\\Program Files", "Java", "jdk1.6", "bin", "java.exe"], true) :=
  C1_first_match_wins twoJdkWorld [] true "C:\\Program Files" [] [⟨true, "jdk1.8"⟩]
    ⟨true, "jdk1.6"⟩ rfl (by decide) (by decide) rfl (by decide) (by decide)

/-! ### Missing registry value: what getRegValue actually returns -/

/-- C2: code-level evaluation at the failing input.  In
`missingJavaHomeWorld` the key `SOFTWARE\JavaSoft\Java Runtime
Environment\1.7` exists but holds no `JavaHome` value; `getRegValue`
nevertheless returns TRUE and stores the uninitialized buffer contents
(`junk`) into the out value, because it only tests the final status
against `ERROR_MORE_DATA`, so `ERROR_FILE_NOT_FOUND` counts as success.
`exploreJavaRegistry` then reaches the `checkBinPath` validation with the
garbage path and reports not-found only because that validation fails. -/
theorem C2_missing_value_returns_true :
    missingJavaHomeWorld.regKeyExists 0
      "SOFTWARE\\JavaSoft\\Java Runtime Environment\\1.7" = true ∧
    missingJavaHomeWorld.regValue 0
      "SOFTWARE\\JavaSoft\\Java Runtime Environment\\1.7" "JavaHome" = none ∧
    getRegValue missingJavaHomeWorld
      "SOFTWARE\\JavaSoft\\Java Runtime Environment\\1.7" "JavaHome" 0 "" =
      (true, missingJavaHomeWorld.junk) ∧
    exploreJavaRegistry missingJavaHomeWorld "Java Runtime Environment" 0
      ["C:\\orig"] true = (false, ["C:\\orig"], true) := by
  decide

end FindJava
